import Mathlib

/-!
Verification of the request-handling layer of the sucoi-ai backend
(`src/server.js`): authentication (signup / signin / reset-password),
the companion-chat endpoint, and the goal CRUD endpoints.

The JavaScript handlers are embedded shallowly as pure Lean functions over
an explicit database state `DB` (lists of user / goal / chat records plus a
monotone clock standing for `Date.now` and fresh-id generation).  JavaScript
strings are modelled as lists of code points (`JsStr := List Nat`);
`String.prototype.toLowerCase` (on the ASCII range, the only range the data
uses) and `String.prototype.trim` are given explicit models `jsToLower` and
`jsTrim`.  The outbound call to the generative-text endpoint is modelled by
an oracle argument: `none` stands for a fetch / JSON-parse failure, `some
data` for a parsed response body.  Database driver failures are outside the
model: every modelled database operation succeeds.
-/

/-- A JavaScript string, as its list of code points. -/
abbrev JsStr := List Nat

/-- Code points of a Lean string literal, for writing concrete `JsStr`s. -/
def js (s : String) : JsStr := s.data.map Char.toNat

/-- ASCII lower-casing of one code point, as `toLowerCase` acts on `A`–`Z`. -/
def jsCharToLower (c : Nat) : Nat :=
  if 65 ≤ c ∧ c ≤ 90 then c + 32 else c

/-- Model of `String.prototype.toLowerCase` on the code points the app uses. -/
def jsToLower (s : JsStr) : JsStr := s.map jsCharToLower

/-- Whitespace code points stripped by `String.prototype.trim`
(space, tab, line feed, vertical tab, form feed, carriage return). -/
def isJsWs (c : Nat) : Bool :=
  c == 32 || c == 9 || c == 10 || c == 11 || c == 12 || c == 13

/-- Model of `String.prototype.trim`: drop leading and trailing whitespace. -/
def jsTrim (s : JsStr) : JsStr :=
  ((s.dropWhile isJsWs).reverse.dropWhile isJsWs).reverse

/-- `securityAnswer.toLowerCase().trim()`, the normal form the server stores
(signup, line 76) and compares against (reset-password, line 138). -/
def normalizeAnswer (s : JsStr) : JsStr := jsTrim (jsToLower s)

/-- A document of the `User` collection (`userSchema`, lines 46–53).
`securityQuestion` / `securityAnswer` are optional fields; `createdAt`
is the creation instant. -/
structure UserRec where
  name : JsStr
  email : JsStr
  password : JsStr
  securityQuestion : Option JsStr
  securityAnswer : Option JsStr
  createdAt : Nat
deriving DecidableEq, Repr

/-- A document of the `Goal` collection (`goalSchema`, lines 27–34), with
`gid` standing for the Mongo `_id`.  The schema has a unique index on
`(username, taskId)` (line 36). -/
structure GoalRec where
  gid : Nat
  username : JsStr
  day : JsStr
  taskId : Nat
  taskText : JsStr
  taskDone : Bool
  createdAt : Nat
deriving DecidableEq, Repr

/-- A document of the `Chat` collection (`chatSchema`, lines 38–43). -/
structure ChatRec where
  username : JsStr
  userMessage : JsStr
  botReply : JsStr
  createdAt : Nat
deriving DecidableEq, Repr

/-- The database state: the three collections in insertion order, plus a
monotone counter modelling `Date.now` (and supplying fresh `_id`s). -/
structure DB where
  users : List UserRec
  goals : List GoalRec
  chats : List ChatRec
  now : Nat
deriving DecidableEq, Repr

/-- The JSON value a goal is reshaped into on the wire (get-goals). -/
inductive Json where
  | str (s : JsStr)
  | num (n : Nat)
  | bool (b : Bool)
  | obj (fields : List (JsStr × Json))
  | arr (items : List Json)
  | null

/-- The responses the handlers can produce, each constructor recording the
HTTP status class and the JSON body the source sends. -/
inductive ApiResp where
  /-- 200 `{success: true, message}` -/
  | okMsg (message : JsStr)
  /-- 200 `{success: true, user: {name, email}}` (signin) -/
  | okUser (name email : JsStr)
  /-- 200 `{reply}` (chat) -/
  | okReply (reply : JsStr)
  /-- 200 `{message}` (add-goal) -/
  | okGoalSaved (message : JsStr)
  /-- 200 `{success: true}` (delete-goal) -/
  | okSuccess
  /-- 400 `{error}` (duplicate signup) -/
  | conflict (error : JsStr)
  /-- 401 `{error}` -/
  | unauthorized (error : JsStr)
  /-- 404 `{error}` -/
  | notFound (error : JsStr)
  /-- 500 `{error}` (catch-all) -/
  | serverError (error : JsStr)
  /-- 500 `{reply}` (chat catch-all) -/
  | serverErrorReply (reply : JsStr)
deriving DecidableEq, Repr

/-- `User.findOne({ email })`: first user whose `email` matches. -/
def findUserByEmail (users : List UserRec) (email : JsStr) : Option UserRec :=
  users.find? (fun u => u.email == email)

/-- `POST /signup` (lines 60–85).  Conflict when the email already exists;
otherwise a `User` is constructed whose `securityAnswer` field is
`securityAnswer.toLowerCase().trim()` — when the request omits
`securityAnswer`, that call throws on `undefined` and the catch block
answers 500 without saving anything. -/
def signup (st : DB) (name email password : JsStr)
    (securityQuestion securityAnswer : Option JsStr) : ApiResp × DB :=
  match findUserByEmail st.users email with
  | some _ => (.conflict (js "User already exists!"), st)
  | none =>
    match securityAnswer with
    | none => (.serverError (js "Failed to create user"), st)
    | some a =>
      let newUser : UserRec :=
        { name, email, password, securityQuestion,
          securityAnswer := some (normalizeAnswer a), createdAt := st.now }
      (.okMsg (js "User created successfully!"),
       { st with users := st.users ++ [newUser], now := st.now + 1 })

/-- `POST /signin` (lines 88–103): `User.findOne({ email, password })`,
success with `{name, email}` on a match, else 401. -/
def signin (st : DB) (email password : JsStr) : ApiResp × DB :=
  match st.users.find? (fun u => u.email == email && u.password == password) with
  | some u => (.okUser u.name u.email, st)
  | none => (.unauthorized (js "Invalid credentials!"), st)

/-- Overwrite the password of the first user whose email matches
(`user.password = newPassword; await user.save()`). -/
def updatePasswordOfFirst (users : List UserRec) (email newPassword : JsStr) :
    List UserRec :=
  match users with
  | [] => []
  | u :: rest =>
    if u.email == email then { u with password := newPassword } :: rest
    else u :: updatePasswordOfFirst rest email newPassword

/-- `POST /reset-password` (lines 127–149).  404 when no user has the email;
otherwise the stored answer is compared with
`securityAnswer.toLowerCase().trim()` (throwing into the 500 catch when the
request omits `securityAnswer`); on match the password is overwritten. -/
def resetPassword (st : DB) (email : JsStr) (securityAnswer : Option JsStr)
    (newPassword : JsStr) : ApiResp × DB :=
  match findUserByEmail st.users email with
  | none => (.notFound (js "User not found!"), st)
  | some u =>
    match securityAnswer with
    | none => (.serverError (js "Failed to reset password"), st)
    | some a =>
      if u.securityAnswer == some (normalizeAnswer a) then
        (.okMsg (js "Password reset successfully!"),
         { st with users := updatePasswordOfFirst st.users email newPassword })
      else
        (.unauthorized (js "Incorrect security answer!"), st)

/-- One `parts` entry of a completion-response candidate. -/
structure GeminiPart where
  text : Option JsStr
deriving DecidableEq, Repr

/-- The `content` of a completion-response candidate. -/
structure GeminiContent where
  parts : List GeminiPart
deriving DecidableEq, Repr

/-- One entry of the completion response's `candidates` array. -/
structure GeminiCandidate where
  content : Option GeminiContent
deriving DecidableEq, Repr

/-- A parsed completion-response body; absent fields are `none`, matching
the optional chaining `data?.candidates?.[0]?.content?.parts?.[0]?.text`. -/
structure GeminiResponse where
  candidates : Option (List GeminiCandidate)
deriving DecidableEq, Repr

/-- `data?.candidates?.[0]?.content?.parts?.[0]?.text`, before trimming. -/
def rawFirstCandidateText (data : GeminiResponse) : Option JsStr := do
  let cs ← data.candidates
  let c ← cs.head?
  let content ← c.content
  let p ← content.parts.head?
  p.text

/-- The fixed fallback reply substituted by `|| "Sorry, ..."` (line 183). -/
def fallbackReply : JsStr := js "Sorry, I didn't understand that. 💜"

/-- Reply extraction (lines 181–183): trim the first candidate's text and
fall back to `fallbackReply` when the chain is undefined or the trimmed
text is the empty string (both falsy under `||`). -/
def chatReply (data : GeminiResponse) : JsStr :=
  match rawFirstCandidateText data with
  | none => fallbackReply
  | some t => if jsTrim t == [] then fallbackReply else jsTrim t

/-- Result of one `POST /chat` call: the response, the new state, and
whether the handler reached the outbound `fetch` to the completion
endpoint. -/
structure ChatResult where
  resp : ApiResp
  db : DB
  calledExternal : Bool
deriving Repr

/-- `POST /chat` (lines 152–194).  `message` / `username` are the request
body fields (`none` = absent); `apiOutcome` is the oracle for the outbound
call (`none` = fetch or JSON parse threw, landing in the catch block).
An empty or absent message (`!userMsg`) answers immediately; otherwise the
reply is extracted and, when `username` is truthy, one `Chat` document is
created before responding. -/
def chat (st : DB) (message username : Option JsStr)
    (apiOutcome : Option GeminiResponse) : ChatResult :=
  let msgFalsy : Bool := match message with | none => true | some m => m == []
  if msgFalsy then
    ⟨.okReply (js "Please type something first."), st, false⟩
  else
    let userMsg := message.getD []
    match apiOutcome with
    | none =>
      ⟨.serverErrorReply (js "Server error. Please try again later. 💜"), st, true⟩
    | some data =>
      let reply := chatReply data
      let usernameTruthy : Bool :=
        match username with | none => false | some u => !(u == [])
      if usernameTruthy then
        ⟨.okReply reply,
         { st with
            chats := st.chats ++
              [{ username := username.getD [], userMessage := userMsg,
                 botReply := reply, createdAt := st.now }],
            now := st.now + 1 },
         true⟩
      else
        ⟨.okReply reply, st, true⟩

/-- Does a goal document match the `{ username, taskId }` filter? -/
def goalKeyMatches (username : JsStr) (taskId : Nat) (g : GoalRec) : Bool :=
  g.username == username && g.taskId == taskId

/-- `Goal.findOneAndUpdate({username, taskId}, {...}, {upsert: true})`:
overwrite the first matching document's `day` / `taskText` / `taskDone`
(the update lists `username` and `taskId` too, but they already match);
insert a fresh document when none matches.  `createdAt` of an updated
document is untouched. -/
def upsertGoal (goals : List GoalRec) (username day : JsStr) (taskId : Nat)
    (taskText : JsStr) (taskDone : Bool) (now : Nat) : List GoalRec :=
  match goals with
  | [] =>
    [{ gid := now, username, day, taskId, taskText, taskDone, createdAt := now }]
  | g :: rest =>
    if goalKeyMatches username taskId g then
      { g with day := day, taskText := taskText, taskDone := taskDone } :: rest
    else
      g :: upsertGoal rest username day taskId taskText taskDone now

/-- `POST /add-goal` (lines 197–220), after `JSON.parse(goal)` has yielded
`{day, task: {id, text, done}}` (an unparsable body would hit the 500
catch, outside these claims).  Always answers the success message. -/
def addGoal (st : DB) (username day : JsStr) (taskId : Nat)
    (taskText : JsStr) (taskDone : Bool) : ApiResp × DB :=
  (.okGoalSaved (js "Goal saved successfully!"),
   { st with
      goals := upsertGoal st.goals username day taskId taskText taskDone st.now,
      now := st.now + 1 })

/-- The `Goal.find({username})` result: the user's documents in natural
(insertion) order. -/
def goalsOf (st : DB) (username : JsStr) : List GoalRec :=
  st.goals.filter (fun g => g.username == username)

/-- The `.sort({createdAt: 1})` ordering relation. -/
def createdLe (a b : GoalRec) : Prop := a.createdAt ≤ b.createdAt

instance : DecidableRel createdLe := fun a b => Nat.decLe a.createdAt b.createdAt

/-- The user's goals sorted ascending by `createdAt`. -/
def sortedGoalsOf (st : DB) (username : JsStr) : List GoalRec :=
  (goalsOf st username).insertionSort createdLe

/-- The wire reshaping of one goal (lines 229–236): the value serialized by
`JSON.stringify({day, task: {id: taskId, text: taskText, done: taskDone}})`. -/
def goalWire (g : GoalRec) : Json :=
  .obj [(js "day", .str g.day),
        (js "task", .obj [(js "id", .num g.taskId),
                          (js "text", .str g.taskText),
                          (js "done", .bool g.taskDone)])]

/-- `GET /get-goals/:username` (lines 223–244): the user's goals sorted by
creation time ascending, each sent as `{_id, goal}`. -/
def getGoals (st : DB) (username : JsStr) : List (Nat × Json) :=
  (sortedGoalsOf st username).map (fun g => (g.gid, goalWire g))

/-- Field lookup on a parsed JSON object (the client's access to the parsed
`goal` string). -/
def Json.getField (j : Json) (key : JsStr) : Option Json :=
  match j with
  | .obj fields => (fields.find? (fun p => p.fst == key)).map Prod.snd
  | _ => none

/-- The `{day, task: {id, text, done}}` shape a client reconstructs by
`JSON.parse`ing a wire `goal` string. -/
structure ParsedGoal where
  day : JsStr
  taskId : Nat
  taskText : JsStr
  taskDone : Bool
deriving DecidableEq, Repr

/-- Parse a wire goal value back into `{day, task: {id, text, done}}`. -/
def parseGoalWire (j : Json) : Option ParsedGoal := do
  let some (.str day) := j.getField (js "day") | none
  let some task := j.getField (js "task") | none
  let some (.num tid) := task.getField (js "id") | none
  let some (.str ttext) := task.getField (js "text") | none
  let some (.bool tdone) := task.getField (js "done") | none
  pure { day := day, taskId := tid, taskText := ttext, taskDone := tdone }

/-- `POST /delete-goal` (lines 275–293): `Goal.findOneAndDelete({username,
taskId})` removes the first matching document; 404 when none matches. -/
def deleteGoal (st : DB) (username : JsStr) (taskId : Nat) : ApiResp × DB :=
  match st.goals.find? (goalKeyMatches username taskId) with
  | some _ =>
    (.okSuccess, { st with goals := st.goals.eraseP (goalKeyMatches username taskId) })
  | none => (.notFound (js "Goal not found"), st)

/-! ### Normalization lemmas: `toLowerCase` and `trim` commute -/

theorem isJsWs_jsCharToLower (c : Nat) : isJsWs (jsCharToLower c) = isJsWs c := by
  unfold jsCharToLower
  split
  · rename_i h
    have h1 : isJsWs (c + 32) = false := by
      simp only [isJsWs, Bool.or_eq_false_iff, beq_eq_false_iff_ne, ne_eq]
      omega
    have h2 : isJsWs c = false := by
      simp only [isJsWs, Bool.or_eq_false_iff, beq_eq_false_iff_ne, ne_eq]
      omega
    rw [h1, h2]
  · rfl

theorem dropWhile_isJsWs_map_jsCharToLower (l : List Nat) :
    (l.map jsCharToLower).dropWhile isJsWs =
      (l.dropWhile isJsWs).map jsCharToLower := by
  induction l with
  | nil => rfl
  | cons a t ih =>
    simp only [List.map_cons, List.dropWhile_cons, isJsWs_jsCharToLower]
    split
    · exact ih
    · rfl

theorem jsTrim_jsToLower (s : JsStr) :
    jsTrim (jsToLower s) = jsToLower (jsTrim s) := by
  unfold jsTrim jsToLower
  rw [dropWhile_isJsWs_map_jsCharToLower, ← List.map_reverse,
      dropWhile_isJsWs_map_jsCharToLower, ← List.map_reverse]

theorem normalizeAnswer_eq_of_trim_lower_eq {a a' : JsStr}
    (h : jsToLower (jsTrim a') = jsToLower (jsTrim a)) :
    normalizeAnswer a' = normalizeAnswer a := by
  unfold normalizeAnswer
  rw [jsTrim_jsToLower, jsTrim_jsToLower, h]

/-! ### Lookup helper lemmas -/

theorem findUserByEmail_eq_none_iff (users : List UserRec) (email : JsStr) :
    findUserByEmail users email = none ↔ ∀ u ∈ users, u.email ≠ email := by
  simp [findUserByEmail, List.find?_eq_none]

theorem findUserByEmail_append_singleton (users : List UserRec) (v : UserRec)
    (email : JsStr) (hfresh : ∀ u ∈ users, u.email ≠ email) (hv : v.email = email) :
    findUserByEmail (users ++ [v]) email = some v := by
  induction users with
  | nil => simp [findUserByEmail, List.find?, hv]
  | cons u rest ih =>
    have hu : (u.email == email) = false := by
      simp only [beq_eq_false_iff_ne, ne_eq]
      exact hfresh u (List.mem_cons_self u rest)
    have htail := ih (fun w hw => hfresh w (List.mem_cons_of_mem u hw))
    simpa [findUserByEmail, List.find?, hu] using htail

theorem updatePasswordOfFirst_append_singleton (users : List UserRec) (v : UserRec)
    (email np : JsStr) (hfresh : ∀ u ∈ users, u.email ≠ email) (hv : v.email = email) :
    updatePasswordOfFirst (users ++ [v]) email np =
      users ++ [{ v with password := np }] := by
  induction users with
  | nil => simp [updatePasswordOfFirst, hv]
  | cons u rest ih =>
    have hu : (u.email == email) = false := by
      simp only [beq_eq_false_iff_ne, ne_eq]
      exact hfresh u (List.mem_cons_self u rest)
    have htail := ih (fun w hw => hfresh w (List.mem_cons_of_mem u hw))
    simp [updatePasswordOfFirst, hu, htail]

/-! ### The claims -/

/-- C9: for every `(username, taskId)` pair with no matching stored goal
record, `deleteGoal` returns Not Found and the goals collection (indeed the
whole state) is exactly the same after the call as before it. -/
theorem deleteGoal_missing_notFound (st : DB) (username : JsStr) (taskId : Nat)
    (h : ∀ g ∈ st.goals, ¬(g.username = username ∧ g.taskId = taskId)) :
    deleteGoal st username taskId = (.notFound (js "Goal not found"), st) := by
  have hf : st.goals.find? (goalKeyMatches username taskId) = none := by
    rw [List.find?_eq_none]
    intro g hg
    simpa [goalKeyMatches] using h g hg
  simp [deleteGoal, hf]

/-- Witness for C9: a one-goal collection holding `(u, 1)`, queried for the
absent pair `(v, 1)`. -/
theorem deleteGoal_missing_notFound_witness :
    (∀ g ∈ (⟨[], [⟨0, js "u", js "d", 1, js "t", false, 0⟩], [], 5⟩ : DB).goals,
        ¬(g.username = js "v" ∧ g.taskId = 1)) ∧
    deleteGoal ⟨[], [⟨0, js "u", js "d", 1, js "t", false, 0⟩], [], 5⟩ (js "v") 1 =
      (.notFound (js "Goal not found"),
       ⟨[], [⟨0, js "u", js "d", 1, js "t", false, 0⟩], [], 5⟩) :=
  ⟨by decide, deleteGoal_missing_notFound _ _ _ (by decide)⟩

/-- C8: a chat call whose message is empty or absent responds with the fixed
prompt-to-retry string, leaves the state (in particular the chats
collection) unchanged, and never reaches the outbound completion call. -/
theorem chat_empty_message_no_call (st : DB) (message username : Option JsStr)
    (out : Option GeminiResponse) (h : message = none ∨ message = some []) :
    chat st message username out =
      ⟨.okReply (js "Please type something first."), st, false⟩ := by
  rcases h with h | h <;> subst h <;> rfl

/-- Witness for C8: an absent message on a concrete state. -/
theorem chat_empty_message_no_call_witness :
    ((none : Option JsStr) = none ∨ (none : Option JsStr) = some []) ∧
    chat ⟨[], [], [], 0⟩ none (some (js "alice")) none =
      ⟨.okReply (js "Please type something first."), ⟨[], [], [], 0⟩, false⟩ :=
  ⟨Or.inl rfl, chat_empty_message_no_call _ _ _ _ (Or.inl rfl)⟩

/-- C6: signin succeeds (with the matched user's `{name, email}`) exactly
when some record matches both the submitted email and password; every
mismatch answers the one fixed Unauthorized response, so any two mismatch
outcomes — nonexistent email or existing email with wrong password — are
identical and reveal nothing about the email's existence. -/
theorem signin_success_iff_match (st : DB) (email password : JsStr) :
    ((∃ u ∈ st.users, u.email = email ∧ u.password = password) →
       ∃ u ∈ st.users, u.email = email ∧ u.password = password ∧
         signin st email password = (.okUser u.name u.email, st))
  ∧ ((¬ ∃ u ∈ st.users, u.email = email ∧ u.password = password) →
       signin st email password = (.unauthorized (js "Invalid credentials!"), st))
  ∧ (∀ st2 : DB, ∀ e2 p2 : JsStr,
       (¬ ∃ u ∈ st.users, u.email = email ∧ u.password = password) →
       (¬ ∃ u ∈ st2.users, u.email = e2 ∧ u.password = p2) →
       (signin st email password).1 = (signin st2 e2 p2).1) := by
  have key : ∀ (s : DB) (e p : JsStr),
      (¬ ∃ u ∈ s.users, u.email = e ∧ u.password = p) →
      signin s e p = (.unauthorized (js "Invalid credentials!"), s) := by
    intro s e p hno
    have hf : s.users.find? (fun u => u.email == e && u.password == p) = none := by
      rw [List.find?_eq_none]
      intro u hu
      simp only [Bool.and_eq_true, beq_iff_eq, not_and]
      intro he hp
      exact hno ⟨u, hu, he, hp⟩
    simp [signin, hf]
  refine ⟨?_, key st email password, ?_⟩
  · intro hyes
    cases hf : st.users.find? (fun u => u.email == email && u.password == password) with
    | none =>
      exfalso
      obtain ⟨u, hu, he, hp⟩ := hyes
      have := List.find?_eq_none.mp hf u hu
      simp [he, hp] at this
    | some u =>
      have hmem := List.mem_of_find?_eq_some hf
      have hpu := List.find?_some hf
      simp only [Bool.and_eq_true, beq_iff_eq] at hpu
      exact ⟨u, hmem, hpu.1, hpu.2, by simp [signin, hf]⟩
  · intro st2 e2 p2 h1 h2
    rw [key st email password h1, key st2 e2 p2 h2]

/-- Witness for C6: a one-user store; correct credentials succeed, and two
different mismatches (absent email / wrong password) coincide. -/
theorem signin_success_iff_match_witness :
    (∃ u ∈ (⟨[⟨js "A", js "a@b", js "pw", none, none, 0⟩], [], [], 1⟩ : DB).users,
        u.email = js "a@b" ∧ u.password = js "pw") ∧
    (∃ u ∈ (⟨[⟨js "A", js "a@b", js "pw", none, none, 0⟩], [], [], 1⟩ : DB).users,
        u.email = js "a@b" ∧ u.password = js "pw" ∧
        signin ⟨[⟨js "A", js "a@b", js "pw", none, none, 0⟩], [], [], 1⟩ (js "a@b") (js "pw") =
          (.okUser u.name u.email, ⟨[⟨js "A", js "a@b", js "pw", none, none, 0⟩], [], [], 1⟩)) ∧
    (signin ⟨[⟨js "A", js "a@b", js "pw", none, none, 0⟩], [], [], 1⟩ (js "x@y") (js "pw")).1 =
      (signin ⟨[⟨js "A", js "a@b", js "pw", none, none, 0⟩], [], [], 1⟩ (js "a@b") (js "zz")).1 :=
  ⟨by decide,
   (signin_success_iff_match ⟨[⟨js "A", js "a@b", js "pw", none, none, 0⟩], [], [], 1⟩
      (js "a@b") (js "pw")).1 (by decide),
   (signin_success_iff_match ⟨[⟨js "A", js "a@b", js "pw", none, none, 0⟩], [], [], 1⟩
      (js "x@y") (js "pw")).2.2 _ (js "a@b") (js "zz") (by decide) (by decide)⟩

/-- C1 counterexample: a signup request whose email matches no existing
user record (the store is empty) but which omits `securityAnswer` does not
store a record and does not return success — `securityAnswer.toLowerCase()`
throws on `undefined` and the catch block answers the 500 error instead. -/
theorem signup_missing_answer_counterexample :
    (signup ⟨[], [], [], 0⟩ (js "Ann") (js "a@b") (js "pw") none none).1 =
      .serverError (js "Failed to create user") ∧
    (signup ⟨[], [], [], 0⟩ (js "Ann") (js "a@b") (js "pw") none none).2.users = [] := by
  exact ⟨rfl, rfl⟩

/-- C1 (amended): for a fresh email, a signup request that supplies
`securityAnswer` stores one new record (answer normalized to
lowercase/trimmed form) and returns the success acknowledgment, while a
request omitting `securityAnswer` stores nothing and answers a 500 server
error; the call fails with Conflict exactly when a user with that email
already exists. -/
theorem signup_spec (st : DB) (name email password : JsStr) (sq : Option JsStr) :
    ((∀ u ∈ st.users, u.email ≠ email) →
       (∀ a, signup st name email password sq (some a) =
          (.okMsg (js "User created successfully!"),
           { st with
              users := st.users ++
                [⟨name, email, password, sq, some (normalizeAnswer a), st.now⟩],
              now := st.now + 1 }))
       ∧ signup st name email password sq none =
           (.serverError (js "Failed to create user"), st))
  ∧ (∀ sa : Option JsStr,
       (signup st name email password sq sa).1 = .conflict (js "User already exists!")
         ↔ ∃ u ∈ st.users, u.email = email) := by
  constructor
  · intro hfresh
    have hf : findUserByEmail st.users email = none :=
      (findUserByEmail_eq_none_iff st.users email).mpr hfresh
    exact ⟨fun a => by simp [signup, hf], by simp [signup, hf]⟩
  · intro sa
    cases hf : findUserByEmail st.users email with
    | none =>
      have hfresh := (findUserByEmail_eq_none_iff st.users email).mp hf
      constructor
      · intro hconf
        exfalso
        cases sa <;> simp [signup, hf] at hconf
      · rintro ⟨u, hu, he⟩
        exact absurd he (hfresh u hu)
    | some u =>
      have hmem := List.mem_of_find?_eq_some hf
      have hpu := List.find?_some hf
      simp only [beq_iff_eq] at hpu
      simp [signup, hf]
      exact ⟨u, hmem, hpu⟩

/-- Witness for C1: a fresh-email signup with an answer succeeds and
normalizes; one omitting the answer errors; the conflict equivalence read
at a taken store. -/
theorem signup_spec_witness :
    (∀ u ∈ ([] : List UserRec), u.email ≠ js "a@b") ∧
    signup ⟨[], [], [], 7⟩ (js "Ann") (js "a@b") (js "pw") none (some (js " Blue ")) =
      (.okMsg (js "User created successfully!"),
       ⟨[⟨js "Ann", js "a@b", js "pw", none, some (js "blue"), 7⟩], [], [], 8⟩) ∧
    signup ⟨[], [], [], 7⟩ (js "Ann") (js "a@b") (js "pw") none none =
      (.serverError (js "Failed to create user"), ⟨[], [], [], 7⟩) ∧
    ((signup ⟨[⟨js "Ann", js "a@b", js "pw", none, none, 0⟩], [], [], 7⟩
        (js "Bob") (js "a@b") (js "p2") none (some (js "x"))).1 =
          .conflict (js "User already exists!")
      ↔ ∃ u ∈ [(⟨js "Ann", js "a@b", js "pw", none, none, 0⟩ : UserRec)], u.email = js "a@b") := by
  refine ⟨by decide, ?_, ?_, ?_⟩
  · have h := ((signup_spec ⟨[], [], [], 7⟩ (js "Ann") (js "a@b") (js "pw") none).1
      (by decide)).1 (js " Blue ")
    rw [h]
    decide
  · exact ((signup_spec ⟨[], [], [], 7⟩ (js "Ann") (js "a@b") (js "pw") none).1
      (by decide)).2
  · exact (signup_spec ⟨[⟨js "Ann", js "a@b", js "pw", none, none, 0⟩], [], [], 7⟩
      (js "Bob") (js "a@b") (js "p2") none).2 (some (js "x"))

/-- C2: a user created by signup with security answer `a` can reset the
password with any submitted answer `a'` that differs from `a` only in
letter case and/or leading/trailing whitespace (formally: the two agree
after trimming and case folding): the reset succeeds and overwrites exactly
that user's password. -/
theorem reset_after_signup_case_ws_insensitive
    (st : DB) (name email password np : JsStr) (sq : Option JsStr) (a a' : JsStr)
    (hfresh : ∀ u ∈ st.users, u.email ≠ email)
    (hvar : jsToLower (jsTrim a') = jsToLower (jsTrim a)) :
    resetPassword (signup st name email password sq (some a)).2 email (some a') np =
      (.okMsg (js "Password reset successfully!"),
       { (signup st name email password sq (some a)).2 with
          users := st.users ++
            [⟨name, email, np, sq, some (normalizeAnswer a), st.now⟩] }) := by
  have hf : findUserByEmail st.users email = none :=
    (findUserByEmail_eq_none_iff st.users email).mpr hfresh
  have hstep : (signup st name email password sq (some a)).2 =
      { st with
         users := st.users ++
           [⟨name, email, password, sq, some (normalizeAnswer a), st.now⟩],
         now := st.now + 1 } := by
    simp [signup, hf]
  set v : UserRec := ⟨name, email, password, sq, some (normalizeAnswer a), st.now⟩ with hv
  have hfind : findUserByEmail (st.users ++ [v]) email = some v :=
    findUserByEmail_append_singleton st.users v email hfresh rfl
  have hnorm : normalizeAnswer a' = normalizeAnswer a :=
    normalizeAnswer_eq_of_trim_lower_eq hvar
  have hupd : updatePasswordOfFirst (st.users ++ [v]) email np =
      st.users ++ [{ v with password := np }] :=
    updatePasswordOfFirst_append_singleton st.users v email np hfresh rfl
  rw [hstep]
  simp only [resetPassword, hfind, hnorm, hv, beq_self_eq_true, if_pos rfl]
  simp [hupd, hv]

/-- Witness for C2: stored answer `"blue"` (after normalization), submitted
answer `"BLUE "`. -/
theorem reset_after_signup_case_ws_insensitive_witness :
    (∀ u ∈ ([] : List UserRec), u.email ≠ js "a@b") ∧
    jsToLower (jsTrim (js "BLUE ")) = jsToLower (jsTrim (js "blue")) ∧
    resetPassword (signup ⟨[], [], [], 3⟩ (js "Ann") (js "a@b") (js "pw") none
        (some (js "blue"))).2 (js "a@b") (some (js "BLUE ")) (js "np") =
      (.okMsg (js "Password reset successfully!"),
       ⟨[⟨js "Ann", js "a@b", js "np", none, some (js "blue"), 3⟩], [], [], 4⟩) := by
  refine ⟨by decide, by decide, ?_⟩
  have h := reset_after_signup_case_ws_insensitive ⟨[], [], [], 3⟩ (js "Ann") (js "a@b")
    (js "pw") (js "np") none (js "blue") (js "BLUE ") (by decide) (by decide)
  rw [h]
  decide

theorem updatePasswordOfFirst_of_find (users : List UserRec) (email np : JsStr) :
    ∀ u, users.find? (fun w => w.email == email) = some u →
      ∃ i, ∃ hi : i < users.length,
        users.get ⟨i, hi⟩ = u ∧
        updatePasswordOfFirst users email np =
          users.set i { u with password := np } := by
  induction users with
  | nil => intro u hu; simp at hu
  | cons w rest ih =>
    intro u hu
    cases hw : (w.email == email) with
    | true =>
      simp only [List.find?_cons, hw] at hu
      obtain rfl : w = u := Option.some_inj.mp hu
      exact ⟨0, Nat.succ_pos _, rfl, by simp [updatePasswordOfFirst, hw]⟩
    | false =>
      simp only [List.find?_cons, hw] at hu
      obtain ⟨i, hi, hget, hupd⟩ := ih u hu
      refine ⟨i + 1, Nat.succ_lt_succ hi, hget, ?_⟩
      simp [updatePasswordOfFirst, hw, hupd]

/-- C7: a reset-password call never touches the goals or chats collections
or the clock; the users collection either is completely unchanged, or has
exactly one record — one matching the submitted email whose stored answer
equals the normalized submitted answer — rewritten with only its password
field replaced (name, email, securityQuestion, securityAnswer, createdAt
kept); when a user is found but the normalized answers differ, the call
answers Unauthorized and the whole state is unchanged. -/
theorem resetPassword_frame (st : DB) (email : JsStr) (sa : Option JsStr) (np : JsStr) :
    (resetPassword st email sa np).2.goals = st.goals
  ∧ (resetPassword st email sa np).2.chats = st.chats
  ∧ (resetPassword st email sa np).2.now = st.now
  ∧ ((resetPassword st email sa np).2.users = st.users ∨
      ∃ a, sa = some a ∧
      ∃ i, ∃ hi : i < st.users.length,
        (st.users.get ⟨i, hi⟩).email = email ∧
        (st.users.get ⟨i, hi⟩).securityAnswer = some (normalizeAnswer a) ∧
        (resetPassword st email sa np).2.users =
          st.users.set i { st.users.get ⟨i, hi⟩ with password := np } ∧
        (resetPassword st email sa np).1 = .okMsg (js "Password reset successfully!"))
  ∧ (∀ u, findUserByEmail st.users email = some u →
      ∀ a, sa = some a → u.securityAnswer ≠ some (normalizeAnswer a) →
        resetPassword st email sa np =
          (.unauthorized (js "Incorrect security answer!"), st)) := by
  cases hf : findUserByEmail st.users email with
  | none =>
    refine ⟨by simp [resetPassword, hf], by simp [resetPassword, hf],
      by simp [resetPassword, hf], Or.inl (by simp [resetPassword, hf]), ?_⟩
    intro u hu
    exact absurd hu (by simp)
  | some u =>
    cases sa with
    | none =>
      refine ⟨by simp [resetPassword, hf], by simp [resetPassword, hf],
        by simp [resetPassword, hf], Or.inl (by simp [resetPassword, hf]), ?_⟩
      intro u' hu' a ha
      exact absurd ha (by simp)
    | some a =>
      by_cases hans : (u.securityAnswer == some (normalizeAnswer a)) = true
      · have hueq : u.email = email := by
          have := List.find?_some hf
          simpa using this
        obtain ⟨i, hi, hget, hupd⟩ :=
          updatePasswordOfFirst_of_find st.users email np u hf
        have hred : resetPassword st email (some a) np =
            (.okMsg (js "Password reset successfully!"),
             { st with users := updatePasswordOfFirst st.users email np }) := by
          simp [resetPassword, hf, hans]
        refine ⟨by rw [hred], by rw [hred], by rw [hred], ?_, ?_⟩
        · refine Or.inr ⟨a, rfl, i, hi, ?_, ?_, ?_, by rw [hred]⟩
          · rw [hget]; exact hueq
          · rw [hget]; exact (beq_iff_eq.mp hans)
          · rw [hred, hget]
            exact hupd
        · intro u' hu' a' ha' hne
          obtain rfl : u = u' := Option.some_inj.mp hu'
          obtain rfl : a = a' := Option.some_inj.mp ha'
          exact absurd (beq_iff_eq.mp hans) hne
      · have hred : resetPassword st email (some a) np =
            (.unauthorized (js "Incorrect security answer!"), st) := by
          simp [resetPassword, hf, hans]
        refine ⟨by rw [hred], by rw [hred], by rw [hred], Or.inl (by rw [hred]), ?_⟩
        intro u' hu' a' ha' hne
        obtain rfl : a = a' := Option.some_inj.mp ha'
        exact hred

/-- Witness for C7: a matching reset on a concrete one-user store changes
only the password; a wrong answer leaves the store unchanged. -/
theorem resetPassword_frame_witness :
    (resetPassword ⟨[⟨js "A", js "a@b", js "pw", none, some (js "blue"), 0⟩], [], [], 9⟩
        (js "a@b") (some (js "Blue ")) (js "np")).2.goals = [] ∧
    (findUserByEmail [⟨js "A", js "a@b", js "pw", none, some (js "blue"), 0⟩] (js "a@b") =
        some ⟨js "A", js "a@b", js "pw", none, some (js "blue"), 0⟩) ∧
    resetPassword ⟨[⟨js "A", js "a@b", js "pw", none, some (js "blue"), 0⟩], [], [], 9⟩
        (js "a@b") (some (js "red")) (js "np") =
      (.unauthorized (js "Incorrect security answer!"),
       ⟨[⟨js "A", js "a@b", js "pw", none, some (js "blue"), 0⟩], [], [], 9⟩) :=
  ⟨(resetPassword_frame ⟨[⟨js "A", js "a@b", js "pw", none, some (js "blue"), 0⟩], [], [], 9⟩
      (js "a@b") (some (js "Blue ")) (js "np")).1,
   by decide,
   (resetPassword_frame ⟨[⟨js "A", js "a@b", js "pw", none, some (js "blue"), 0⟩], [], [], 9⟩
      (js "a@b") (some (js "red")) (js "np")).2.2.2.2
     ⟨js "A", js "a@b", js "pw", none, some (js "blue"), 0⟩ (by decide)
     (js "red") rfl (by decide)⟩

/-- C3 counterexample: a chat call that supplies the username `"alice"` but
an empty message persists no chat record at all (the empty-message guard
returns before the persistence step), contradicting "exactly one chat
record is persisted" for every call with a username. -/
theorem chat_with_username_persists_nothing_counterexample :
    (chat ⟨[], [], [], 0⟩ (some []) (some (js "alice"))
        (some ⟨some [⟨some ⟨[⟨some (js "hello")⟩]⟩⟩]⟩)).db.chats = [] := by
  rfl

/-- C3 (amended): a chat call with a non-empty message, a successful
external completion call, and a non-empty username persists exactly one
chat record `{username, userMessage, botReply}`; a call with an empty or
absent message, a failed external call, or an absent or empty username
persists none. -/
theorem chat_persistence (st : DB) (m u : Option JsStr) (out : Option GeminiResponse) :
    ((m = none ∨ m = some []) → (chat st m u out).db.chats = st.chats)
  ∧ (∀ msg, m = some msg → msg ≠ [] → out = none →
      (chat st m u out).db.chats = st.chats)
  ∧ (∀ msg data, m = some msg → msg ≠ [] → out = some data →
      (u = none ∨ u = some []) → (chat st m u out).db.chats = st.chats)
  ∧ (∀ msg data un, m = some msg → msg ≠ [] → out = some data →
      u = some un → un ≠ [] →
      (chat st m u out).db.chats =
        st.chats ++ [⟨un, msg, chatReply data, st.now⟩]) := by
  refine ⟨?_, ?_, ?_, ?_⟩
  · intro h
    rcases h with h | h <;> subst h <;> rfl
  · intro msg hm hne hout
    subst hm; subst hout
    have hb : (msg == ([] : JsStr)) = false := by
      simpa using hne
    simp [chat, hb]
  · intro msg data hm hne hout hu
    subst hm; subst hout
    have hb : (msg == ([] : JsStr)) = false := by
      simpa using hne
    rcases hu with hu | hu <;> subst hu <;> simp [chat, hb]
  · intro msg data un hm hne hout hu hun
    subst hm; subst hout; subst hu
    have hb : (msg == ([] : JsStr)) = false := by
      simpa using hne
    have hbu : (un == ([] : JsStr)) = false := by
      simpa using hun
    simp [chat, hb, hbu]

/-- Witness for C3 (amended): a successful chat with username `"al"`
appends exactly the one record; the same call without a username appends
none. -/
theorem chat_persistence_witness :
    (chat ⟨[], [], [], 4⟩ (some (js "hi")) (some (js "al"))
        (some ⟨some [⟨some ⟨[⟨some (js " ok ")⟩]⟩⟩]⟩)).db.chats =
      [⟨js "al", js "hi", js "ok", 4⟩] ∧
    (chat ⟨[], [], [], 4⟩ (some (js "hi")) none
        (some ⟨some [⟨some ⟨[⟨some (js " ok ")⟩]⟩⟩]⟩)).db.chats = [] := by
  constructor
  · have h := (chat_persistence ⟨[], [], [], 4⟩ (some (js "hi")) (some (js "al"))
      (some ⟨some [⟨some ⟨[⟨some (js " ok ")⟩]⟩⟩]⟩)).2.2.2
      (js "hi") ⟨some [⟨some ⟨[⟨some (js " ok ")⟩]⟩⟩]⟩ (js "al")
      rfl (by decide) rfl rfl (by decide)
    rw [h]
    decide
  · have h := (chat_persistence ⟨[], [], [], 4⟩ (some (js "hi")) none
      (some ⟨some [⟨some ⟨[⟨some (js " ok ")⟩]⟩⟩]⟩)).2.2.1
      (js "hi") ⟨some [⟨some ⟨[⟨some (js " ok ")⟩]⟩⟩]⟩
      rfl (by decide) rfl (Or.inl rfl)
    rw [h]

/-- C10: when the completion response parses but its first candidate's text
is absent, empty, or whitespace-only, the chat handler answers the fixed
fallback string, and persists it as `botReply` when a (truthy) username is
supplied. -/
theorem chat_fallback_on_blank_reply (st : DB) (msg : JsStr) (u : Option JsStr)
    (data : GeminiResponse) (hmsg : msg ≠ [])
    (hblank : rawFirstCandidateText data = none ∨
              ∃ t, rawFirstCandidateText data = some t ∧ jsTrim t = []) :
    (chat st (some msg) u (some data)).resp = .okReply fallbackReply
  ∧ (∀ un, u = some un → un ≠ [] →
      (chat st (some msg) u (some data)).db.chats =
        st.chats ++ [⟨un, msg, fallbackReply, st.now⟩]) := by
  have hreply : chatReply data = fallbackReply := by
    rcases hblank with h | ⟨t, ht, htrim⟩
    · simp [chatReply, h]
    · simp [chatReply, ht, htrim]
  have hb : (msg == ([] : JsStr)) = false := by
    simpa using hmsg
  constructor
  · cases u with
    | none => simp [chat, hb, hreply]
    | some un =>
      by_cases hu : (un == ([] : JsStr)) = true <;> simp [chat, hb, hu, hreply]
  · intro un hu hun
    subst hu
    have hbu : (un == ([] : JsStr)) = false := by
      simpa using hun
    simp [chat, hb, hbu, hreply]

/-- Witness for C10: a parsed response whose only candidate text is
whitespace; the reply and the persisted record both carry the fallback. -/
theorem chat_fallback_on_blank_reply_witness :
    (js "hey" ≠ ([] : JsStr)) ∧
    (chat ⟨[], [], [], 2⟩ (some (js "hey")) (some (js "al"))
        (some ⟨some [⟨some ⟨[⟨some (js "   ")⟩]⟩⟩]⟩)).resp = .okReply fallbackReply ∧
    (chat ⟨[], [], [], 2⟩ (some (js "hey")) (some (js "al"))
        (some ⟨some [⟨some ⟨[⟨some (js "   ")⟩]⟩⟩]⟩)).db.chats =
      [⟨js "al", js "hey", fallbackReply, 2⟩] := by
  have h := chat_fallback_on_blank_reply ⟨[], [], [], 2⟩ (js "hey") (some (js "al"))
    ⟨some [⟨some ⟨[⟨some (js "   ")⟩]⟩⟩]⟩ (by decide)
    (Or.inr ⟨js "   ", rfl, by decide⟩)
  refine ⟨by decide, h.1, ?_⟩
  rw [h.2 (js "al") rfl (by decide)]
  decide

instance : IsTotal GoalRec createdLe :=
  ⟨fun a b => Nat.le_total a.createdAt b.createdAt⟩

instance : IsTrans GoalRec createdLe :=
  ⟨fun _ _ _ => Nat.le_trans⟩

/-- C4: get-goals returns exactly the user's stored goal records (a
permutation of the `username` filter), ordered ascending by `createdAt`,
each sent as its `_id` paired with the wire JSON; and parsing a wire item
back reconstructs `{day, task: {id, text, done}}` equal to the stored
record's flattened `day` / `taskId` / `taskText` / `taskDone` fields. -/
theorem getGoals_sorted_roundtrip (st : DB) (username : JsStr) :
    List.Sorted createdLe (sortedGoalsOf st username)
  ∧ (sortedGoalsOf st username).Perm (goalsOf st username)
  ∧ (sortedGoalsOf st username).map (fun g => parseGoalWire (goalWire g))
      = (sortedGoalsOf st username).map (fun g =>
          some ⟨g.day, g.taskId, g.taskText, g.taskDone⟩)
  ∧ getGoals st username =
      (sortedGoalsOf st username).map (fun g => (g.gid, goalWire g)) := by
  refine ⟨List.sorted_insertionSort createdLe (goalsOf st username),
    List.perm_insertionSort createdLe (goalsOf st username), ?_, rfl⟩
  rfl

/-- The `(username, taskId)` uniqueness invariant the schema's unique index
(line 36) maintains on the goals collection. -/
def GoalKeysUnique (goals : List GoalRec) : Prop :=
  goals.Pairwise (fun a b => ¬(a.username = b.username ∧ a.taskId = b.taskId))

theorem goalKeyMatches_iff (username : JsStr) (taskId : Nat) (g : GoalRec) :
    goalKeyMatches username taskId g = true ↔
      g.username = username ∧ g.taskId = taskId := by
  simp [goalKeyMatches]

theorem mem_upsertGoal (goals : List GoalRec) (u d : JsStr) (tid : Nat)
    (t : JsStr) (dn : Bool) (now : Nat) :
    ∀ b ∈ upsertGoal goals u d tid t dn now,
      b ∈ goals ∨ (b.username = u ∧ b.taskId = tid) := by
  induction goals with
  | nil =>
    intro b hb
    simp only [upsertGoal, List.mem_singleton] at hb
    subst hb
    exact Or.inr ⟨rfl, rfl⟩
  | cons g rest ih =>
    intro b hb
    cases hm : goalKeyMatches u tid g with
    | true =>
      simp only [upsertGoal, hm, if_true] at hb
      rcases List.mem_cons.mp hb with rfl | hb
      · obtain ⟨h1, h2⟩ := (goalKeyMatches_iff u tid g).mp hm
        exact Or.inr ⟨h1, h2⟩
      · exact Or.inl (List.mem_cons_of_mem g hb)
    | false =>
      simp only [upsertGoal, hm, if_false] at hb
      rcases List.mem_cons.mp hb with rfl | hb
      · exact Or.inl (List.mem_cons_self b rest)
      · rcases ih b hb with h | h
        · exact Or.inl (List.mem_cons_of_mem g h)
        · exact Or.inr h

theorem upsertGoal_preserves_unique (goals : List GoalRec) (u d : JsStr)
    (tid : Nat) (t : JsStr) (dn : Bool) (now : Nat)
    (h : GoalKeysUnique goals) :
    GoalKeysUnique (upsertGoal goals u d tid t dn now) := by
  induction goals with
  | nil =>
    simp [GoalKeysUnique, upsertGoal]
  | cons g rest ih =>
    rw [GoalKeysUnique, List.pairwise_cons] at h
    cases hm : goalKeyMatches u tid g with
    | true =>
      rw [GoalKeysUnique]
      simp only [upsertGoal, hm, if_true]
      rw [List.pairwise_cons]
      exact ⟨h.1, h.2⟩
    | false =>
      rw [GoalKeysUnique]
      simp only [upsertGoal, hm]
      rw [if_neg (by simp)]
      rw [List.pairwise_cons]
      refine ⟨?_, ih h.2⟩
      intro b hb
      rcases mem_upsertGoal rest u d tid t dn now b hb with hmem | ⟨hbu, hbt⟩
      · exact h.1 b hmem
      · rintro ⟨h1, h2⟩
        rw [hbu] at h1
        rw [hbt] at h2
        exact absurd ((goalKeyMatches_iff u tid g).mpr ⟨h1, h2⟩) (by simp [hm])

theorem filter_upsertGoal (goals : List GoalRec) (u d : JsStr) (tid : Nat)
    (t : JsStr) (dn : Bool) (now : Nat) (h : GoalKeysUnique goals) :
    (upsertGoal goals u d tid t dn now).filter (goalKeyMatches u tid) =
      (match goals.find? (goalKeyMatches u tid) with
       | none => [⟨now, u, d, tid, t, dn, now⟩]
       | some g0 => [{ g0 with day := d, taskText := t, taskDone := dn }]) := by
  induction goals with
  | nil =>
    simp [upsertGoal, List.filter, goalKeyMatches]
  | cons g rest ih =>
    rw [GoalKeysUnique, List.pairwise_cons] at h
    cases hm : goalKeyMatches u tid g with
    | true =>
      have hg := (goalKeyMatches_iff u tid g).mp hm
      have hrest : rest.filter (goalKeyMatches u tid) = [] := by
        rw [List.filter_eq_nil_iff]
        intro b hb
        have := h.1 b hb
        simp only [goalKeyMatches_iff]
        rintro ⟨h1, h2⟩
        exact this ⟨hg.1.symm ▸ h1.symm ▸ rfl, hg.2.symm ▸ h2.symm ▸ rfl⟩
      have hm' : goalKeyMatches u tid
          { g with day := d, taskText := t, taskDone := dn } = true := hm
      simp only [upsertGoal, hm, if_true, List.filter_cons, hm', List.find?_cons,
        hrest]
    | false =>
      simp only [upsertGoal, hm]
      rw [if_neg (by simp)]
      have hfc : List.filter (goalKeyMatches u tid)
          (g :: upsertGoal rest u d tid t dn now)
          = List.filter (goalKeyMatches u tid) (upsertGoal rest u d tid t dn now) := by
        simp [List.filter_cons, hm]
      have hfd : List.find? (goalKeyMatches u tid) (g :: rest)
          = List.find? (goalKeyMatches u tid) rest := by
        simp [List.find?_cons, hm]
      rw [hfc, hfd, ih h.2]

/-- C5: add-goal always responds with the success message; and calling it
twice with the same `(username, taskId)` pair but different task texts
leaves exactly one stored goal record for the pair, carrying the text of
the second call (upsert: insert when the pair is absent, else overwrite
`day` / `taskText` / `taskDone`). -/
theorem addGoal_idempotent_upsert (st : DB) (u d1 d2 : JsStr) (tid : Nat)
    (t1 t2 : JsStr) (b1 b2 : Bool)
    (huniq : GoalKeysUnique st.goals) (hdiff : t1 ≠ t2) :
    (∀ st' : DB, ∀ u' d' : JsStr, ∀ tid' : Nat, ∀ t' : JsStr, ∀ b' : Bool,
       (addGoal st' u' d' tid' t' b').1 = .okGoalSaved (js "Goal saved successfully!"))
  ∧ ∃ g : GoalRec,
      ((addGoal (addGoal st u d1 tid t1 b1).2 u d2 tid t2 b2).2.goals.filter
          (goalKeyMatches u tid)) = [g]
      ∧ g.taskText = t2 := by
  refine ⟨fun _ _ _ _ _ _ => rfl, ?_⟩
  have huniq1 : GoalKeysUnique (upsertGoal st.goals u d1 tid t1 b1 st.now) :=
    upsertGoal_preserves_unique st.goals u d1 tid t1 b1 st.now huniq
  have hfilter := filter_upsertGoal (upsertGoal st.goals u d1 tid t1 b1 st.now)
    u d2 tid t2 b2 (st.now + 1) huniq1
  cases hfind : (upsertGoal st.goals u d1 tid t1 b1 st.now).find?
      (goalKeyMatches u tid) with
  | none =>
    rw [hfind] at hfilter
    exact ⟨⟨st.now + 1, u, d2, tid, t2, b2, st.now + 1⟩, hfilter, rfl⟩
  | some g0 =>
    rw [hfind] at hfilter
    exact ⟨{ g0 with day := d2, taskText := t2, taskDone := b2 }, hfilter, rfl⟩

/-- Witness for C5: two add-goal calls for `(u, 1)` on an empty collection,
texts `t1` then `t2`; one record remains and it carries `t2`. -/
theorem addGoal_idempotent_upsert_witness :
    GoalKeysUnique ([] : List GoalRec) ∧ js "t1" ≠ js "t2" ∧
    ∃ g : GoalRec,
      ((addGoal (addGoal ⟨[], [], [], 0⟩ (js "u") (js "Mon") 1 (js "t1") false).2
          (js "u") (js "Tue") 1 (js "t2") true).2.goals.filter
          (goalKeyMatches (js "u") 1)) = [g]
      ∧ g.taskText = js "t2" :=
  ⟨List.Pairwise.nil, by decide,
   (addGoal_idempotent_upsert ⟨[], [], [], 0⟩ (js "u") (js "Mon") (js "Tue") 1
      (js "t1") (js "t2") false true List.Pairwise.nil (by decide)).2⟩
